import Mathlib

/-
Verification of the TCP connection engine in src/tcp.rs.

Machine integers (u32, u16) are modelled as Nat with explicit reduction
modulo 2^32 (resp. bounds) where the Rust code wraps.  Fallible or
panicking code paths (unchecked subtraction underflow, assert!,
unimplemented!) are modelled with Option: none means the call panics.
-/

namespace Tcp

/-- u32 wrapping addition: (a + b) mod 2^32. -/
def wrappingAdd (a b : Nat) : Nat := (a + b) % 2 ^ 32

/-- u32 wrapping subtraction: (a - b) mod 2^32. -/
def wrappingSub (a b : Nat) : Nat := (a + 2 ^ 32 - b % 2 ^ 32) % 2 ^ 32

/-- Unchecked u32 subtraction as in the Rust expression x - y on u32:
    none models the underflow panic. -/
def checkedSub (a b : Nat) : Option Nat := if b ≤ a then some (a - b) else none

/-- Embedding of fn is_between_wrapped(start, x, end) from src/tcp.rs
    (match start.cmp(&x): Equal gives false; Less returns false iff
    end >= start and end <= x; Greater returns true iff end < start and
    end > x). -/
def is_between_wrapped (s x e : Nat) : Bool :=
  if s = x then false
  else if s < x then
    if e ≥ s ∧ e ≤ x then false else true
  else
    if e < s ∧ x < e then true else false

/-- There is a forward rotation d with 0 < d < D and (a + d) mod 2^32 = b
    exactly when the forward distance from a to b is positive and below D. -/
lemma exists_rot_iff (a b D : Nat) (ha : a < 2 ^ 32) (hb : b < 2 ^ 32)
    (hD : D ≤ 2 ^ 32) :
    (∃ d, 0 < d ∧ d < D ∧ (a + d) % 2 ^ 32 = b) ↔
      0 < (b + 2 ^ 32 - a) % 2 ^ 32 ∧ (b + 2 ^ 32 - a) % 2 ^ 32 < D := by
  constructor
  · rintro ⟨d, h1, h2, h3⟩
    omega
  · rintro ⟨h1, h2⟩
    exact ⟨(b + 2 ^ 32 - a) % 2 ^ 32, h1, h2, by omega⟩

/-- Connection states (enum State in src/tcp.rs). -/
inductive State where
  | SynRcvd
  | Estab
  | FinWait1
  | FinWait2
  | TimeWait
deriving DecidableEq

/-- Send Sequence Space (RFC793 S3.2 F4), struct SendSequenceSpace. -/
structure SendSequenceSpace where
  una : Nat
  nxt : Nat
  wnd : Nat
  up : Bool
  wl1 : Nat
  wl2 : Nat
  iss : Nat
deriving DecidableEq

/-- Receive Sequence Space (RFC793 S3.2 F5), struct RecvSequenceSpace. -/
structure RecvSequenceSpace where
  nxt : Nat
  wnd : Nat
  up : Bool
  irs : Nat
deriving DecidableEq

/-- The fields of etherparse::Ipv4Header that the engine reads or writes. -/
structure Ipv4Header where
  source : List Nat
  destination : List Nat
  ttl : Nat
  payload_len : Nat
deriving DecidableEq

/-- The fields of etherparse::TcpHeader that the engine reads or writes. -/
structure TcpHeader where
  source_port : Nat
  destination_port : Nat
  sequence_number : Nat
  acknowledgment_number : Nat
  window_size : Nat
  syn : Bool
  ack : Bool
  fin : Bool
  rst : Bool
  checksum : Nat
deriving DecidableEq

/-- struct Connection from src/tcp.rs. -/
structure Connection where
  state : State
  send : SendSequenceSpace
  recv : RecvSequenceSpace
  ip : Ipv4Header
  tcp : TcpHeader
deriving DecidableEq

/-- An inbound segment: the fields on_packet and accept read from the
    parsed TCP header slice plus the payload data. -/
structure Segment where
  seqn : Nat
  ackn : Nat
  syn : Bool
  ack : Bool
  fin : Bool
  wnd : Nat
  payload : List Nat
deriving DecidableEq

/-- A frame handed to the raw device: the serialized IP header, TCP header
    (as it was at serialization time) and the payload bytes written. -/
structure Frame where
  ip : Ipv4Header
  tcp : TcpHeader
  payload : List Nat
deriving DecidableEq

/-- Big-endian 16-bit words of a byte list, zero-padding an odd tail. -/
def bytesToWords : List Nat → List Nat
  | [] => []
  | [b] => [b * 256]
  | b1 :: b2 :: rest => (b1 * 256 + b2) :: bytesToWords rest

/-- One carry-folding step of the ones-complement sum. -/
def foldCarry1 (s : Nat) : Nat := s % 65536 + s / 65536

/-- Fold all carries of a 16-bit ones-complement sum (three steps suffice
    for the sums that arise here). -/
def foldCarries (s : Nat) : Nat := foldCarry1 (foldCarry1 (foldCarry1 s))

/-- The data-offset/flags word of a TCP header with no options. -/
def flagsWord (tcp : TcpHeader) : Nat :=
  5 * 4096 + (if tcp.ack then 16 else 0) + (if tcp.rst then 4 else 0) +
    (if tcp.syn then 2 else 0) + (if tcp.fin then 1 else 0)

/-- The 16-bit words covered by the TCP checksum: IPv4 pseudo-header
    (addresses, protocol 6, TCP length), the TCP header with a zero
    checksum field, then the payload. -/
def checksumWords (tcp : TcpHeader) (ip : Ipv4Header) (payload : List Nat) :
    List Nat :=
  bytesToWords ip.source ++ bytesToWords ip.destination ++
    [6, 20 + payload.length] ++
    [tcp.source_port, tcp.destination_port,
     tcp.sequence_number / 65536, tcp.sequence_number % 65536,
     tcp.acknowledgment_number / 65536, tcp.acknowledgment_number % 65536,
     flagsWord tcp, tcp.window_size, 0, 0] ++
    bytesToWords payload

/-- Modelled from the spec: the header codec (the external etherparse
    crate, not part of this repository) computes the TCP checksum over a
    pseudo-header plus payload given the owning IP header
    (calc_checksum_ipv4). -/
def calc_checksum_ipv4 (tcp : TcpHeader) (ip : Ipv4Header)
    (payload : List Nat) : Nat :=
  65535 - foldCarries ((checksumWords tcp ip payload).foldl (· + ·) 0)

/-- Embedding of Connection::write from src/tcp.rs.  The buffer is 1500
    bytes; both headers are 20 bytes (no options).  Returns the updated
    connection, the frame handed to nic.send, and the Ok payload-byte
    count.  Note the source computes the checksum over an empty slice and
    serializes the headers before clearing the SYN/FIN flags. -/
def write (c : Connection) (payload : List Nat) : Connection × Frame × Nat :=
  let tcp0 : TcpHeader :=
    { c.tcp with sequence_number := c.send.nxt,
                 acknowledgment_number := c.recv.nxt }
  let size := min 1500 (20 + 20 + payload.length)
  let ip0 : Ipv4Header := { c.ip with payload_len := size - 20 }
  let tcp1 : TcpHeader := { tcp0 with checksum := calc_checksum_ipv4 tcp0 ip0 [] }
  let payload_bytes := min payload.length (1500 - 40)
  let nxt1 := wrappingAdd c.send.nxt payload_bytes
  let nxt2 := if tcp1.syn then wrappingAdd nxt1 1 else nxt1
  let nxt3 := if tcp1.fin then wrappingAdd nxt2 1 else nxt2
  let tcp2 : TcpHeader := { tcp1 with syn := false, fin := false }
  (⟨c.state, { c.send with nxt := nxt3 }, c.recv, ip0, tcp2⟩,
   ⟨ip0, tcp1, payload.take payload_bytes⟩,
   payload_bytes)

/-- Embedding of Connection::send_rst from src/tcp.rs: set RST, zero the
    template sequence and acknowledgment numbers, then call write. -/
def send_rst (c : Connection) : Connection × Frame :=
  let c0 : Connection :=
    { c with tcp := { c.tcp with rst := true, sequence_number := 0,
                                 acknowledgment_number := 0 } }
  let r := write c0 []
  (r.1, r.2.1)

/-- The effective segment length used by on_packet: payload length, plus
    one if SYN is set, plus one if FIN is set. -/
def segLen (payloadLen : Nat) (syn fin : Bool) : Nat :=
  payloadLen + (if syn then 1 else 0) + (if fin then 1 else 0)

/-- The segment acceptance check of on_packet (src/tcp.rs lines 128-161),
    with the short-circuit of the Rust && preserved; none models the
    underflow panic of the unchecked final - 1 in the last-byte argument
    seqn.wrapping_add(slen-1) as u32 - 1. -/
def acceptanceCheck (rcvNxt rcvWnd seqn slen : Nat) : Option Bool :=
  let strt := wrappingSub rcvNxt 1
  let wend := wrappingAdd rcvNxt rcvWnd
  if slen = 0 then
    if rcvWnd = 0 then some (decide (seqn = rcvNxt))
    else some (is_between_wrapped strt seqn wend)
  else
    if rcvWnd = 0 then some false
    else if is_between_wrapped strt seqn wend then some true
    else
      match checkedSub (wrappingAdd seqn (slen - 1)) 1 with
      | none => none
      | some lb => some (is_between_wrapped strt lb wend)

/-- The SynRcvd branch of on_packet (lines 176-183): move to Estab when
    the ack number is strictly between send.una - 1 and send.nxt + 1. -/
def synRcvdCheck (c : Connection) (ackn : Nat) : Connection :=
  if c.state = State.SynRcvd then
    if is_between_wrapped (wrappingSub c.send.una 1) ackn
        (wrappingAdd c.send.nxt 1)
    then { c with state := State.Estab } else c
  else c

/-- The Estab/FinWait1/FinWait2 block of on_packet (lines 185-199).
    Result none models the assert!(data.is_empty()) panic; the Bool is
    false when the block takes the early return Ok(()) (line 187) and
    true when control continues to the later steps. -/
def establishedAck (c : Connection) (ackn : Nat) (payloadEmpty : Bool) :
    Option (Connection × List Frame × Bool) :=
  if c.state = State.Estab ∨ c.state = State.FinWait1 ∨
      c.state = State.FinWait2 then
    if is_between_wrapped c.send.una ackn (wrappingAdd c.send.nxt 1) then
      if payloadEmpty then
        if c.state = State.Estab then
          let r := write { c with send := { c.send with una := ackn },
                                  tcp := { c.tcp with fin := true } } []
          some ({ r.1 with state := State.FinWait1 }, [r.2.1], true)
        else some ({ c with send := { c.send with una := ackn } }, [], true)
      else none
    else some (c, [], false)
  else some (c, [], true)

/-- The FinWait1 block of on_packet (lines 201-206): once
    send.una = send.iss + 2 the FIN has been acked, move to FinWait2. -/
def finWait1Check (c : Connection) : Connection :=
  if c.state = State.FinWait1 ∧ c.send.una = wrappingAdd c.send.iss 2 then
    { c with state := State.FinWait2 }
  else c

/-- The FIN block of on_packet (lines 208-217): in FinWait2 reply with an
    empty write and move to TimeWait; any other state hits
    unimplemented! (modelled as none). -/
def finHandling (c : Connection) (fin : Bool) :
    Option (Connection × List Frame) :=
  if fin then
    if c.state = State.FinWait2 then
      let r := write c []
      some ({ r.1 with state := State.TimeWait }, [r.2.1])
    else none
  else some (c, [])

/-- The ACK-driven tail of on_packet (lines 175-217): the SynRcvd check,
    the Estab/FinWait1/FinWait2 block (whose early return stops the
    call), the FinWait1 check and the FIN block, in source order. -/
def ackProcessing (c : Connection) (seg : Segment) :
    Option (Connection × List Frame) :=
  match establishedAck (synRcvdCheck c seg.ackn) seg.ackn
      seg.payload.isEmpty with
  | none => none
  | some (c3, fs, false) => some (c3, fs)
  | some (c3, fs, true) =>
    match finHandling (finWait1Check c3) seg.fin with
    | none => none
    | some (c5, fs2) => some (c5, fs ++ fs2)

/-- Embedding of Connection::on_packet from src/tcp.rs: acceptance check
    (an empty write and Ok on rejection), advance recv.nxt to
    seqn + slen, stop if no ACK flag, then the state-machine blocks in
    source order (ackProcessing).  none models a panic. -/
def on_packet (c : Connection) (seg : Segment) :
    Option (Connection × List Frame) :=
  let slen := segLen seg.payload.length seg.syn seg.fin
  match acceptanceCheck c.recv.nxt c.recv.wnd seg.seqn slen with
  | none => none
  | some false =>
    let r := write c []
    some (r.1, [r.2.1])
  | some true =>
    let c1 : Connection :=
      { c with recv := { c.recv with nxt := wrappingAdd seg.seqn slen } }
    if seg.ack = false then some (c1, []) else ackProcessing c1 seg

/-- Embedding of Connection::accept from src/tcp.rs: reject without SYN
    (Ok(None), modelled as none); otherwise build the connection with
    iss = 0, window 1024, recv primed from the peer sequence number, the
    header templates with source and destination swapped, set SYN and ACK
    on the template, and transmit through write. -/
def accept (seg : Segment) (srcIp dstIp : List Nat) (srcPort dstPort : Nat) :
    Option (Connection × Frame) :=
  if seg.syn = false then none
  else
    let iss := 0
    let wnd := 1024
    let c : Connection :=
      { state := State.SynRcvd
        send := { iss := iss, una := iss, nxt := iss, wnd := wnd,
                  up := false, wl1 := 0, wl2 := 0 }
        recv := { nxt := wrappingAdd seg.seqn 1, wnd := seg.wnd,
                  irs := seg.seqn, up := false }
        ip := { source := dstIp, destination := srcIp, ttl := 64,
                payload_len := 0 }
        tcp := { source_port := dstPort, destination_port := srcPort,
                 sequence_number := iss, acknowledgment_number := 0,
                 window_size := wnd, syn := true, ack := true,
                 fin := false, rst := false, checksum := 0 } }
    let r := write c []
    some (r.1, r.2.1)

/-- Rank of a state in the lifecycle order
    SynRcvd, Estab, FinWait1, FinWait2, TimeWait. -/
def stateRank : State → Nat
  | State.SynRcvd => 0
  | State.Estab => 1
  | State.FinWait1 => 2
  | State.FinWait2 => 3
  | State.TimeWait => 4

/-- A sample established connection used for concrete evaluations. -/
def connA : Connection :=
  { state := State.Estab
    send := { una := 1, nxt := 1, wnd := 10, up := false, wl1 := 0,
              wl2 := 0, iss := 0 }
    recv := { nxt := 10, wnd := 5, up := false, irs := 9 }
    ip := { source := [10, 0, 0, 2], destination := [10, 0, 0, 1],
            ttl := 64, payload_len := 0 }
    tcp := { source_port := 80, destination_port := 12345,
             sequence_number := 0, acknowledgment_number := 0,
             window_size := 1024, syn := false, ack := true,
             fin := false, rst := false, checksum := 0 } }

/-- C1: for all 32-bit a, b, c, is_between_wrapped a b c is false when
    b = a and otherwise holds exactly when some forward rotation d with
    0 < d < (c - a) mod 2^32 lands on b; in particular
    is_between_wrapped 0xFFFFFFF0 0x00000005 0x00000010 is true. -/
theorem C1_is_between_wrapped_canonical (a b c : Nat)
    (ha : a < 2 ^ 32) (hb : b < 2 ^ 32) (hc : c < 2 ^ 32) :
    (is_between_wrapped a b c = true ↔
      b ≠ a ∧ ∃ d, 0 < d ∧ d < (c + 2 ^ 32 - a) % 2 ^ 32 ∧
        (a + d) % 2 ^ 32 = b) ∧
    is_between_wrapped 4294967280 5 16 = true := by
  refine ⟨?_, by decide⟩
  rw [exists_rot_iff a b ((c + 2 ^ 32 - a) % 2 ^ 32) ha hb
    (Nat.le_of_lt (Nat.mod_lt _ (by norm_num)))]
  unfold is_between_wrapped
  split_ifs with h1 h2 h3 h4 <;> simp only [Bool.false_eq_true, Bool.true_eq,
    false_iff, true_iff, not_and, not_lt, ne_eq] <;> omega

/-- C1 witness: the characterization instantiated at a = 1, b = 3, c = 5. -/
theorem C1_is_between_wrapped_canonical_witness :
    (is_between_wrapped 1 3 5 = true ↔
      3 ≠ 1 ∧ ∃ d, 0 < d ∧ d < (5 + 2 ^ 32 - 1) % 2 ^ 32 ∧
        (1 + d) % 2 ^ 32 = 3) ∧
    is_between_wrapped 4294967280 5 16 = true :=
  C1_is_between_wrapped_canonical 1 3 5 (by norm_num) (by norm_num) (by norm_num)

/-- A sequencing-only inbound segment: one payload byte, no flags,
    starting inside the window of connA but past recv.nxt. -/
def segA : Segment :=
  { seqn := 12, ackn := 0, syn := false, ack := false, fin := false,
    wnd := 0, payload := [42] }

/-- C2: with recv.nxt = 10 and recv.wnd = 5, a segment with seqn = 5 and
    slen = 6 ends exactly at byte 10, inside the window, yet the
    acceptance check rejects it because the code tests
    seqn + slen - 2 instead of the last byte seqn + slen - 1. -/
theorem C2_acceptance_drops_in_window_last_byte :
    acceptanceCheck 10 5 5 6 = some false ∧
    is_between_wrapped (wrappingSub 10 1) ((5 + 6 - 1) % 2 ^ 32)
      (wrappingAdd 10 5) = true := by
  decide

/-- C9 counterexample: at recv.nxt = 100, recv.wnd = 10, a segment with
    seqn = 0 and slen = 1 makes the last-byte computation underflow (the
    unchecked - 1 on seqn.wrapping_add(slen-1) = 0), so evaluating the
    acceptance check panics. -/
theorem C9_acceptance_check_underflows :
    acceptanceCheck 100 10 0 1 = none := by
  decide

/-- C9 amended: for slen > 0 the acceptance check underflows exactly when
    the window is nonzero, the first-byte test fails, and
    seqn + slen - 1 is congruent to 0 modulo 2^32; in every other case
    the final subtraction stays within u32. -/
theorem C9_underflow_characterization (rcvNxt rcvWnd seqn slen : Nat)
    (h : 0 < slen) :
    acceptanceCheck rcvNxt rcvWnd seqn slen = none ↔
      rcvWnd ≠ 0 ∧
      is_between_wrapped (wrappingSub rcvNxt 1) seqn
        (wrappingAdd rcvNxt rcvWnd) = false ∧
      (seqn + (slen - 1)) % 2 ^ 32 = 0 := by
  have hs : ¬ slen = 0 := by omega
  simp only [acceptanceCheck, checkedSub, hs, if_false]
  split_ifs with h1 h2 h3
  all_goals simp_all [wrappingAdd, Bool.not_eq_true]
  all_goals omega

/-- C9 witness: the underflow characterization instantiated at
    recv.nxt = 100, recv.wnd = 10, seqn = 0, slen = 1. -/
theorem C9_underflow_characterization_witness :
    0 < 1 ∧
    (acceptanceCheck 100 10 0 1 = none ↔
      (10 : Nat) ≠ 0 ∧
      is_between_wrapped (wrappingSub 100 1) 0 (wrappingAdd 100 10) = false ∧
      (0 + (1 - 1)) % 2 ^ 32 = 0) :=
  ⟨by decide, C9_underflow_characterization 100 10 0 1 (by decide)⟩

/-- C3 counterexample: connA has recv.nxt = 10; the accepted segment segA
    (seqn = 12, slen = 1) leaves recv.nxt = 13, not 10 + 1 = 11, because
    the code sets recv.nxt to seqn + slen rather than advancing the old
    value by slen. -/
theorem C3_recv_nxt_not_old_plus_slen :
    (on_packet connA segA).map (fun p => p.1.recv.nxt) = some 13 ∧
    ¬ ((13 : Nat) =
        (connA.recv.nxt + segLen segA.payload.length segA.syn segA.fin) %
          2 ^ 32) := by
  decide

lemma synRcvdCheck_recv (c : Connection) (a : Nat) :
    (synRcvdCheck c a).recv = c.recv := by
  unfold synRcvdCheck
  split_ifs <;> rfl

lemma establishedAck_recv (c : Connection) (a : Nat) (pe : Bool)
    (c2 : Connection) (fs : List Frame) (b : Bool)
    (h : establishedAck c a pe = some (c2, fs, b)) : c2.recv = c.recv := by
  unfold establishedAck at h
  split at h
  · split at h
    · split at h
      · split at h
        · cases h
          rfl
        · cases h
          rfl
      · cases h
    · cases h
      rfl
  · cases h
    rfl

lemma finWait1Check_recv (c : Connection) :
    (finWait1Check c).recv = c.recv := by
  unfold finWait1Check
  split_ifs <;> rfl

lemma finHandling_recv (c : Connection) (fin : Bool)
    (c2 : Connection) (fs : List Frame)
    (h : finHandling c fin = some (c2, fs)) : c2.recv = c.recv := by
  unfold finHandling at h
  split at h
  · split at h
    · cases h
      rfl
    · cases h
  · cases h
    rfl

lemma ackProcessing_recv (c : Connection) (seg : Segment)
    (c2 : Connection) (fs : List Frame)
    (h : ackProcessing c seg = some (c2, fs)) : c2.recv = c.recv := by
  unfold ackProcessing at h
  split at h
  · cases h
  · rename_i c3 fs3 heq
    cases h
    rw [establishedAck_recv _ _ _ _ _ _ heq, synRcvdCheck_recv]
  · rename_i c3 fs3 heq
    split at h
    · cases h
    · rename_i c5 fs2 hf
      cases h
      rw [finHandling_recv _ _ _ _ hf, finWait1Check_recv,
        establishedAck_recv _ _ _ _ _ _ heq, synRcvdCheck_recv]

/-- C3 amended: on acceptance, on_packet sets recv.nxt to
    (seqn + slen) mod 2^32 (which equals the old recv.nxt plus slen only
    when seqn = recv.nxt), before any further processing, and no later
    step of the call changes it. -/
theorem C3_recv_nxt_set_to_seqn_plus_slen (c : Connection) (seg : Segment)
    (c2 : Connection) (fs : List Frame)
    (hacc : acceptanceCheck c.recv.nxt c.recv.wnd seg.seqn
      (segLen seg.payload.length seg.syn seg.fin) = some true)
    (hrun : on_packet c seg = some (c2, fs)) :
    c2.recv.nxt =
      (seg.seqn + segLen seg.payload.length seg.syn seg.fin) % 2 ^ 32 := by
  simp only [on_packet, hacc] at hrun
  split at hrun
  · cases hrun
    simp [wrappingAdd]
  · rw [ackProcessing_recv _ _ _ _ hrun]
    simp [wrappingAdd]

/-- C3 witness: the amended statement instantiated at connA and segA,
    where the accepted segment leaves recv.nxt = 13 = 12 + 1. -/
theorem C3_recv_nxt_set_to_seqn_plus_slen_witness :
    acceptanceCheck connA.recv.nxt connA.recv.wnd segA.seqn
      (segLen segA.payload.length segA.syn segA.fin) = some true ∧
    on_packet connA segA =
      some ({ connA with recv := { connA.recv with nxt := 13 } }, []) ∧
    ({ connA with recv := { connA.recv with nxt := 13 } } :
        Connection).recv.nxt =
      (segA.seqn + segLen segA.payload.length segA.syn segA.fin) % 2 ^ 32 :=
  ⟨by decide, by decide,
   C3_recv_nxt_set_to_seqn_plus_slen connA segA _ [] (by decide) (by decide)⟩

/-- An out-of-window segment for connA: seqn = 20 with one payload byte
    lies entirely beyond the window [10, 14], so it is rejected. -/
def segR : Segment :=
  { seqn := 20, ackn := 0, syn := false, ack := false, fin := false,
    wnd := 0, payload := [7] }

/-- C4: when the acceptance check rejects a segment, on_packet performs a
    single empty write and returns Ok: the frame is an empty-payload
    acknowledgment carrying the current send.nxt and recv.nxt, and the
    state, send space and receive space are unchanged.  The hypotheses
    that the template SYN/FIN flags are clear hold in every state the
    engine reaches (write clears them after each transmission). -/
theorem C4_rejection_emits_ack_no_mutation (c : Connection) (seg : Segment)
    (hsyn : c.tcp.syn = false) (hfin : c.tcp.fin = false)
    (hack : c.tcp.ack = true) (hnxt : c.send.nxt < 2 ^ 32)
    (hrej : acceptanceCheck c.recv.nxt c.recv.wnd seg.seqn
      (segLen seg.payload.length seg.syn seg.fin) = some false) :
    on_packet c seg = some ((write c []).1, [(write c []).2.1]) ∧
    ((write c []).1).state = c.state ∧
    ((write c []).1).send = c.send ∧
    ((write c []).1).recv = c.recv ∧
    ((write c []).2.1).payload = [] ∧
    ((write c []).2.1).tcp.ack = true ∧
    ((write c []).2.1).tcp.sequence_number = c.send.nxt ∧
    ((write c []).2.1).tcp.acknowledgment_number = c.recv.nxt := by
  have h2 : c.send.nxt % 4294967296 = c.send.nxt := Nat.mod_eq_of_lt (by omega)
  refine ⟨?_, ?_, ?_, ?_, ?_, ?_, ?_, ?_⟩ <;>
    simp [on_packet, hrej, write, wrappingAdd, hsyn, hfin, hack, h2]

/-- C4 witness: the rejection behaviour instantiated at connA and the
    out-of-window segment segR. -/
theorem C4_rejection_emits_ack_no_mutation_witness :
    connA.tcp.syn = false ∧ connA.tcp.fin = false ∧ connA.tcp.ack = true ∧
    connA.send.nxt < 2 ^ 32 ∧
    acceptanceCheck connA.recv.nxt connA.recv.wnd segR.seqn
      (segLen segR.payload.length segR.syn segR.fin) = some false ∧
    (on_packet connA segR =
        some ((write connA []).1, [(write connA []).2.1]) ∧
      ((write connA []).1).state = connA.state ∧
      ((write connA []).1).send = connA.send ∧
      ((write connA []).1).recv = connA.recv ∧
      ((write connA []).2.1).payload = [] ∧
      ((write connA []).2.1).tcp.ack = true ∧
      ((write connA []).2.1).tcp.sequence_number = connA.send.nxt ∧
      ((write connA []).2.1).tcp.acknowledgment_number = connA.recv.nxt) :=
  ⟨rfl, rfl, rfl, by decide, by decide,
   C4_rejection_emits_ack_no_mutation connA segR rfl rfl rfl (by decide)
     (by decide)⟩

/-- A connection that reached FinWait2 in an earlier call: iss = 0, the
    SYN and FIN are both acked, so send.una = send.nxt = 2. -/
def connFW2 : Connection :=
  { state := State.FinWait2
    send := { una := 2, nxt := 2, wnd := 10, up := false, wl1 := 0,
              wl2 := 0, iss := 0 }
    recv := { nxt := 1001, wnd := 10, up := false, irs := 1000 }
    ip := { source := [10, 0, 0, 2], destination := [10, 0, 0, 1],
            ttl := 64, payload_len := 0 }
    tcp := { source_port := 80, destination_port := 12345,
             sequence_number := 0, acknowledgment_number := 0,
             window_size := 1024, syn := false, ack := true,
             fin := false, rst := false, checksum := 0 } }

/-- The peer FIN arriving after FinWait2 was entered: in-window seqn,
    FIN and ACK set, ackn = 2 (a duplicate of the ack that covered our
    FIN). -/
def segFin : Segment :=
  { seqn := 1001, ackn := 2, syn := false, ack := true, fin := true,
    wnd := 10, payload := [] }

/-- C5: a subsequently accepted segment carrying the peer FIN in
    FinWait2 does NOT produce a final ACK or a move to TimeWait: because
    send.una = send.nxt, the ack-validity test fails and on_packet takes
    the early return, leaving the state FinWait2 and sending nothing. -/
theorem C5_fin_after_finwait2_ignored :
    (on_packet connFW2 segFin).map (fun p => (p.1.state, p.2.length)) =
      some (State.FinWait2, 0) := by
  decide

/-- The inbound SYN of the C6 scenario: sequence number 1000. -/
def segSyn : Segment :=
  { seqn := 1000, ackn := 0, syn := true, ack := false, fin := false,
    wnd := 64240, payload := [] }

/-- C6 counterexample: after accept returns (its SYN+ACK transmitted),
    send.nxt is 1, not 0: write advanced it past the SYN. -/
theorem C6_send_nxt_after_accept_ne_zero :
    (accept segSyn [192, 168, 0, 1] [192, 168, 0, 2] 5000 80).map
      (fun p => p.1.send.nxt) = some 1 ∧ (1 : Nat) ≠ 0 := by
  decide

/-- C6 amended: given iss = 0 and an inbound SYN with sequence number
    1000, at the moment accept returns send.nxt = 1 (the Writer advanced
    it past the SYN), recv.nxt = 1001, recv.irs = 1000 and the state is
    SynRcvd. -/
theorem C6_accept_post_state (seg : Segment) (srcIp dstIp : List Nat)
    (sp dp : Nat) (c : Connection) (f : Frame)
    (_hsyn : seg.syn = true) (hseq : seg.seqn = 1000)
    (h : accept seg srcIp dstIp sp dp = some (c, f)) :
    c.send.nxt = 1 ∧ c.recv.nxt = 1001 ∧ c.recv.irs = 1000 ∧
      c.state = State.SynRcvd := by
  unfold accept at h
  split at h
  · cases h
  · cases h
    refine ⟨?_, ?_, ?_, ?_⟩ <;> simp [write, wrappingAdd, hseq]

/-- C6 witness: the amended post-state of accept at the concrete SYN. -/
theorem C6_accept_post_state_witness :
    segSyn.syn = true ∧ segSyn.seqn = 1000 ∧
    ∃ c f, accept segSyn [192, 168, 0, 1] [192, 168, 0, 2] 5000 80 =
        some (c, f) ∧
      (c.send.nxt = 1 ∧ c.recv.nxt = 1001 ∧ c.recv.irs = 1000 ∧
        c.state = State.SynRcvd) := by
  refine ⟨rfl, rfl, ?_⟩
  rcases hacc : accept segSyn [192, 168, 0, 1] [192, 168, 0, 2] 5000 80 with
    _ | ⟨c, f⟩
  · exact absurd hacc (by decide)
  · exact ⟨c, f, rfl, C6_accept_post_state segSyn _ _ _ _ c f rfl rfl hacc⟩

/-- C7 counterexample: on connA (send.nxt = 1, recv.nxt = 10) the RST
    frame handed to the device carries sequence number 1 and
    acknowledgment number 10, not zero: write overwrites the zeroed
    template fields before serializing. -/
theorem C7_rst_frame_nonzero_seq :
    (send_rst connA).2.tcp.sequence_number = 1 ∧
    (send_rst connA).2.tcp.acknowledgment_number = 10 ∧
    ¬ ((1 : Nat) = 0 ∧ (10 : Nat) = 0) := by
  decide

/-- C7 amended: send_rst sets the RST flag and transmits an empty-payload
    segment, but the frame carries the current send.nxt as sequence
    number and recv.nxt as acknowledgment number (the zeroed template
    values are dead stores overwritten by write); they are zero only when
    those counters are zero. -/
theorem C7_rst_frame_fields (c : Connection) :
    (send_rst c).2.tcp.rst = true ∧
    (send_rst c).2.payload = [] ∧
    (send_rst c).2.tcp.sequence_number = c.send.nxt ∧
    (send_rst c).2.tcp.acknowledgment_number = c.recv.nxt := by
  refine ⟨?_, ?_, ?_, ?_⟩ <;> simp [send_rst, write]

/-- C8: the frame written for a two-byte payload carries that payload,
    yet its checksum field equals the checksum computed over an empty
    payload (the code passes an empty slice to calc_checksum_ipv4) and
    differs from the checksum over the actual payload bytes. -/
theorem C8_checksum_ignores_payload :
    (write connA [1, 0]).2.1.payload = [1, 0] ∧
    (write connA [1, 0]).2.1.tcp.checksum =
      calc_checksum_ipv4 (write connA [1, 0]).2.1.tcp
        (write connA [1, 0]).2.1.ip [] ∧
    (write connA [1, 0]).2.1.tcp.checksum ≠
      calc_checksum_ipv4 (write connA [1, 0]).2.1.tcp
        (write connA [1, 0]).2.1.ip [1, 0] := by
  decide

lemma synRcvdCheck_rank (c : Connection) (a : Nat) :
    stateRank c.state ≤ stateRank (synRcvdCheck c a).state := by
  unfold synRcvdCheck
  split_ifs with h1 h2
  · rw [h1]
    exact (by decide : stateRank State.SynRcvd ≤ stateRank State.Estab)
  · exact Nat.le_refl _
  · exact Nat.le_refl _

lemma establishedAck_rank (c : Connection) (a : Nat) (pe : Bool)
    (c2 : Connection) (fs : List Frame) (b : Bool)
    (h : establishedAck c a pe = some (c2, fs, b)) :
    stateRank c.state ≤ stateRank c2.state := by
  unfold establishedAck at h
  split at h
  · split at h
    · split at h
      · split at h
        · cases h
          rename_i hstab
          rw [hstab]
          exact (by decide : stateRank State.Estab ≤ stateRank State.FinWait1)
        · cases h
          exact Nat.le_refl _
      · cases h
    · cases h
      exact Nat.le_refl _
  · cases h
    exact Nat.le_refl _

lemma finWait1Check_rank (c : Connection) :
    stateRank c.state ≤ stateRank (finWait1Check c).state := by
  unfold finWait1Check
  split_ifs with h1
  · rw [h1.1]
    exact (by decide : stateRank State.FinWait1 ≤ stateRank State.FinWait2)
  · exact Nat.le_refl _

lemma finHandling_rank (c : Connection) (fin : Bool)
    (c2 : Connection) (fs : List Frame)
    (h : finHandling c fin = some (c2, fs)) :
    stateRank c.state ≤ stateRank c2.state := by
  unfold finHandling at h
  split at h
  · split at h
    · cases h
      rename_i hfw
      rw [hfw]
      exact (by decide : stateRank State.FinWait2 ≤ stateRank State.TimeWait)
    · cases h
  · cases h
    exact Nat.le_refl _

lemma ackProcessing_rank (c : Connection) (seg : Segment)
    (c2 : Connection) (fs : List Frame)
    (h : ackProcessing c seg = some (c2, fs)) :
    stateRank c.state ≤ stateRank c2.state := by
  unfold ackProcessing at h
  split at h
  · cases h
  · rename_i c3 fs3 heq
    cases h
    exact Nat.le_trans (synRcvdCheck_rank c seg.ackn)
      (establishedAck_rank _ _ _ _ _ _ heq)
  · rename_i c3 fs3 heq
    split at h
    · cases h
    · rename_i c5 fs2 hf
      cases h
      exact Nat.le_trans
        (Nat.le_trans (synRcvdCheck_rank c seg.ackn)
          (establishedAck_rank _ _ _ _ _ _ heq))
        (Nat.le_trans (finWait1Check_rank c3)
          (finHandling_rank _ _ _ _ hf))

set_option maxRecDepth 4096 in
/-- C10: whenever on_packet returns Ok, the post-state is at or after the
    pre-state in the order SynRcvd, Estab, FinWait1, FinWait2, TimeWait:
    the state machine never moves backward, so a synchronized connection
    never returns to SynRcvd. -/
theorem C10_state_rank_monotone (c : Connection) (seg : Segment)
    (c2 : Connection) (fs : List Frame)
    (h : on_packet c seg = some (c2, fs)) :
    stateRank c.state ≤ stateRank c2.state := by
  simp only [on_packet] at h
  split at h
  · cases h
  · cases h
    exact Nat.le_refl _
  · split at h
    · cases h
      exact Nat.le_refl _
    · have hr := ackProcessing_rank _ _ _ _ h
      exact hr

/-- C10 witness: a concrete Ok run of on_packet (connA accepting segA)
    with the state rank not decreasing. -/
theorem C10_state_rank_monotone_witness :
    on_packet connA segA =
      some ({ connA with recv := { connA.recv with nxt := 13 } }, []) ∧
    stateRank connA.state ≤
      stateRank ({ connA with recv := { connA.recv with nxt := 13 } } :
        Connection).state :=
  ⟨by decide, C10_state_rank_monotone connA segA _ [] (by decide)⟩

end Tcp
